import Mathlib

/-!
Verification of the datasets-server orchestration layer.

Shallow embedding of the repository's code:
* `api/routes/valid.py` (`get_valid`),
* the `JobManager` / backfill-planner behaviour exercised by
  `services/worker/tests/test_job_manager.py` (the manager and planner live in
  `libcommon`, outside the excerpted sources; they are modelled from the spec,
  with the behaviour pinned by the in-repo tests where they speak),
* `job_runners/split/first_rows_from_streaming.py` (`retry`, `get_rows`,
  `compute_first_rows_response`),
* the mongodb migration `_20230323155000_cache_dataset_info.py`.

External collaborators (the Hub, the `datasets` library, JSON sizing,
truncation helpers) are parameters of the embedding, exactly as the spec
treats them (out of scope, interface only).
-/

/-- Granularity at which a processing step runs (`input_type`). -/
inductive InputType where
  | dataset
  | config
  | split
deriving DecidableEq, Repr

/-- Modelled from the spec: `ProcessingStep` — static, immutable, part of the
Graph.  `name` is the unique identifier; `cache_kind` is the kind under which
its results are cached (`processing_step.cache_kind` in `valid.py`);
`job_type` is the queue job type; `triggered_by` is the set of step names whose
successful completion makes this step runnable; `job_runner_version` is the
current version of the computation. -/
structure ProcessingStep where
  name : String
  cache_kind : String
  job_type : String
  input_type : InputType
  triggered_by : List String
  job_runner_version : Nat
deriving DecidableEq, Repr

/-- Modelled from the spec: a `ProcessingGraph` is the set of all processing
steps (acyclicity and the derived structure are not needed by the claims). -/
structure ProcessingGraph where
  steps : List ProcessingStep
deriving DecidableEq, Repr

/-- Error body / payload content: a flat string map, enough to express the
`content` and `details` dictionaries compared by the tests. -/
abbrev Content : Type := List (String × String)

/-- Modelled from the spec: `CacheEntry` — one row per
`(step kind, dataset, config, split)` key.  `fanout` carries the set of newly
discovered fan-out keys (enumerated config or split names) that the step's
successful output contains, empty when the step enumerates nothing. -/
structure CacheEntry where
  kind : String
  dataset : String
  config : Option String
  split : Option String
  http_status : Nat
  error_code : Option String
  content : Content
  details : Content
  job_runner_version : Nat
  dataset_git_revision : Option String
  progress : Option Nat
  fanout : List String
deriving DecidableEq, Repr

/-- Job priority (`Priority.LOW`, `Priority.NORMAL`). -/
inductive Priority where
  | low
  | normal
deriving DecidableEq, Repr

/-- Job status; the claims only need the non-terminal states. -/
inductive Status where
  | waiting
  | started
deriving DecidableEq, Repr

/-- Modelled from the spec: `Job` — a unit of queued work, keyed by
`(job_type, dataset, config, split)` (the revision component plays no role in
the claims below). -/
structure Job where
  job_type : String
  dataset : String
  config : Option String
  split : Option String
  priority : Priority
  status : Status
deriving DecidableEq, Repr

/-! ### Cache store primitives

Modelled from the spec: the Cache Store holds at most one entry per key and
offers `upsert` / `get` keyed by `(kind, dataset, config, split)`. -/

/-- Whether a cache entry has the given key. -/
def entryHasKey (kind dataset : String) (config split : Option String)
    (e : CacheEntry) : Bool :=
  e.kind = kind && e.dataset = dataset && e.config = config && e.split = split

/-- Modelled from the spec: `get(key) -> entry | NotFound`. -/
def findEntry (cache : List CacheEntry) (kind dataset : String)
    (config split : Option String) : Option CacheEntry :=
  cache.find? (entryHasKey kind dataset config split)

/-- Modelled from the spec: `upsert(key, entry)` — full replacement of the
entry with the same key, insertion if none exists. -/
def upsertEntry (cache : List CacheEntry) (e : CacheEntry) : List CacheEntry :=
  if cache.any (entryHasKey e.kind e.dataset e.config e.split) then
    cache.map (fun old =>
      if entryHasKey e.kind e.dataset e.config e.split old then e else old)
  else
    cache ++ [e]

/-! ### `get_valid` (src/services/api/src/api/routes/valid.py)

`get_valid_datasets(kind)` (from `libcommon.simple_cache`) is the external
collaborator `find_valid_keys(step_kind)`; it is a parameter of the
embedding.  Python sets of dataset names are embedded as lists, with
`intersection_update` as a filter. -/

/-- The loop of `get_valid`: `datasets` starts as `None`; the first required
step fills it, the next ones intersect it. -/
def getValidLoop (get_valid_datasets : String → List String)
    (steps : List ProcessingStep) (datasets : Option (List String)) :
    Option (List String) :=
  match steps with
  | [] => datasets
  | step :: rest =>
      let kind_datasets := get_valid_datasets step.cache_kind
      match datasets with
      | none => getValidLoop get_valid_datasets rest (some kind_datasets)
      | some ds =>
          getValidLoop get_valid_datasets rest
            (some (ds.filter (fun d => d ∈ kind_datasets)))

/-- `get_valid(processing_graph)`: iterate over the steps required by the
dataset viewer, intersect their valid-dataset sets, return `[]` when there is
no required step, else the sorted list. -/
def get_valid (required_steps : List ProcessingStep)
    (get_valid_datasets : String → List String) : List String :=
  match getValidLoop get_valid_datasets required_steps none with
  | none => []
  | some ds => ds.mergeSort (fun a b => decide (a ≤ b))

/-- `is_valid(dataset)`: membership in the list computed by `get_valid`. -/
def is_valid (required_steps : List ProcessingStep)
    (get_valid_datasets : String → List String) (dataset : String) : Prop :=
  dataset ∈ get_valid required_steps get_valid_datasets

/-! ### Backfill planner (modelled from the spec, section 4.2)

The planner itself lives in `libcommon.state` (`DatasetState.backfill`), which
is not among the excerpted sources; only its callers
(`admin/routes/dataset_backfill.py`) and its test
(`worker/tests/test_job_manager.py::test_backfill`) are.  The definitions
below are modelled from the spec: walk the graph, classify each reachable
`(step, config, split)` triple against the cache, and enqueue a WAITING job
for each triple needing one. -/

/-- Look up a step of the graph by name. -/
def stepByName (g : ProcessingGraph) (name : String) : Option ProcessingStep :=
  g.steps.find? (fun s => s.name = name)

/-- Current `job_runner_version` of the named step (0 when unknown). -/
def versionOf (g : ProcessingGraph) (name : String) : Nat :=
  match stepByName g name with
  | some s => s.job_runner_version
  | none => 0

/-- Cache kind of the named step (the name itself when unknown). -/
def cacheKindOf (g : ProcessingGraph) (name : String) : String :=
  match stepByName g name with
  | some s => s.cache_kind
  | none => name

/-- Modelled from the spec: an entry is *valid and current* for the step named
`t` when its `http_status` denotes success, its revision is the dataset's
current revision and its version is the step's current version. -/
def validCurrentEntry (g : ProcessingGraph) (rev : String) (t : String)
    (e : CacheEntry) : Bool :=
  e.http_status = 200 && e.dataset_git_revision = some rev &&
    e.job_runner_version = versionOf g t

/-- The config names a single triggering step contributes: the fan-out keys
of its valid, current dataset-level cache entry, if any. -/
def triggerConfigs (g : ProcessingGraph) (cache : List CacheEntry)
    (dataset rev : String) (t : String) : List String :=
  match findEntry cache (cacheKindOf g t) dataset none none with
  | some e => if validCurrentEntry g rev t e then e.fanout else []
  | none => []

/-- Modelled from the spec: the config names known for a config-level step —
the fan-out keys enumerated by a valid, current cache entry of one of its
triggering (enumerating ancestor) steps; empty while no such entry exists. -/
def knownConfigs (g : ProcessingGraph) (cache : List CacheEntry)
    (dataset rev : String) (s : ProcessingStep) : List String :=
  s.triggered_by.foldr (fun t acc => triggerConfigs g cache dataset rev t ++ acc) []

/-- Modelled from the spec: the `(config, split)` pairs known for a
split-level step — fan-out keys enumerated by valid, current config-scoped
entries of its triggering steps. -/
def knownConfigSplits (g : ProcessingGraph) (cache : List CacheEntry)
    (dataset rev : String) (s : ProcessingStep) : List (String × String) :=
  s.triggered_by.foldr (fun t acc =>
    (cache.foldr (fun e acc2 =>
      (match e.config with
       | some c =>
           if e.kind = cacheKindOf g t && e.dataset = dataset &&
               e.split = none && validCurrentEntry g rev t e then
             e.fanout.map (fun sp => (c, sp))
           else []
       | none => []) ++ acc2) []) ++ acc) []

/-- Modelled from the spec: the reachable `(config, split)` triples of a step
for one dataset.  A dataset-level step always has the single triple
`(none, none)`; config/split-level steps have one triple per known fan-out
key, hence none at all while the enumerating ancestor has not completed. -/
def triplesOf (g : ProcessingGraph) (cache : List CacheEntry)
    (dataset rev : String) (s : ProcessingStep) :
    List (Option String × Option String) :=
  match s.input_type with
  | .dataset => [(none, none)]
  | .config => (knownConfigs g cache dataset rev s).map (fun c => (some c, none))
  | .split =>
      (knownConfigSplits g cache dataset rev s).map
        (fun p => (some p.1, some p.2))

/-- Modelled from the spec: classification of a triple against its cache
entry.  `fatal` tells which error codes are non-retryable.  No entry →
missing (job); success with current version and revision → up-to-date (no
job); version or revision mismatch → stale (job); error entry → retried
unless its code is fatal. -/
def needsJob (fatal : String → Bool) (rev : String) (s : ProcessingStep)
    (entry : Option CacheEntry) : Bool :=
  match entry with
  | none => true
  | some e =>
      if e.job_runner_version = s.job_runner_version &&
          e.dataset_git_revision = some rev then
        if e.http_status = 200 then false
        else
          match e.error_code with
          | some c => !(fatal c)
          | none => true
      else true

/-- Modelled from the spec: a non-terminal job with the same unique key is
already queued or started. -/
def pendingJob (queue : List Job) (job_type dataset : String)
    (config split : Option String) : Bool :=
  queue.any (fun j =>
    j.job_type = job_type && j.dataset = dataset && j.config = config &&
      j.split = split)

/-- Modelled from the spec: the WAITING jobs the planner creates for one step
of the graph — one per reachable triple that needs a job and is not already
in progress. -/
def jobsForStep (g : ProcessingGraph) (fatal : String → Bool)
    (cache : List CacheEntry) (queue : List Job) (dataset rev : String)
    (prio : Priority) (s : ProcessingStep) : List Job :=
  (triplesOf g cache dataset rev s).filterMap (fun p =>
    if pendingJob queue s.job_type dataset p.1 p.2 then none
    else if needsJob fatal rev s (findEntry cache s.cache_kind dataset p.1 p.2) then
      some { job_type := s.job_type, dataset := dataset, config := p.1,
             split := p.2, priority := prio, status := .waiting }
    else none)

/-- The jobs the planner creates for a list of steps, in order. -/
def jobsForSteps (g : ProcessingGraph) (fatal : String → Bool)
    (cache : List CacheEntry) (queue : List Job) (dataset rev : String)
    (prio : Priority) (steps : List ProcessingStep) : List Job :=
  steps.foldr (fun s acc => jobsForStep g fatal cache queue dataset rev prio s ++ acc) []

/-- Modelled from the spec: one backfill pass over the whole graph for one
dataset at one revision — the list of created WAITING jobs. -/
def backfillJobs (g : ProcessingGraph) (fatal : String → Bool)
    (cache : List CacheEntry) (queue : List Job) (dataset rev : String)
    (prio : Priority) : List Job :=
  jobsForSteps g fatal cache queue dataset rev prio g.steps

/-- Modelled from the spec: planner failures on reading dataset state
(upstream dataset not found, no revision) abort the whole backfill and are
surfaced to the caller. -/
def backfill (g : ProcessingGraph) (fatal : String → Bool)
    (cache : List CacheEntry) (queue : List Job) (dataset : String)
    (rev : Option String) (prio : Priority) : Except String (List Job) :=
  match rev with
  | none => .error "DatasetNotFoundError"
  | some r => .ok (backfillJobs g fatal cache queue dataset r prio)

/-- Number of WAITING jobs of one job type in a list of jobs. -/
def countWaitingJobs (jobs : List Job) (job_type : String) : Nat :=
  jobs.countP (fun j => j.job_type = job_type && j.status = Status.waiting)

/-- Whether some triggering step of `s` has a valid, current cache entry at
dataset level. -/
def hasValidTriggerEntry (g : ProcessingGraph) (cache : List CacheEntry)
    (dataset rev : String) (s : ProcessingStep) : Bool :=
  s.triggered_by.any (fun t =>
    match findEntry cache (cacheKindOf g t) dataset none none with
    | some e => validCurrentEntry g rev t e
    | none => false)

/-- Modelled from the spec: the cache entry committed for a successful job —
`http_status` success, current version, the dataset's current revision, the
payload and the discovered fan-out keys. -/
def successEntry (s : ProcessingStep) (dataset : String)
    (config split : Option String) (rev : String) (payload : Content)
    (fanout : List String) : CacheEntry :=
  { kind := s.cache_kind, dataset := dataset, config := config, split := split,
    http_status := 200, error_code := none, content := payload, details := [],
    job_runner_version := s.job_runner_version,
    dataset_git_revision := some rev, progress := some 1, fanout := fanout }

/-- Modelled from the spec: the cascade after a dataset-level root job
completes successfully — commit its success entry, then run a backfill pass
for the dataset (`test_backfill` shows the pass covers the whole graph,
root steps not triggered by the completed step included). -/
def cascadeJobs (g : ProcessingGraph) (fatal : String → Bool)
    (cache : List CacheEntry) (queue : List Job) (root : ProcessingStep)
    (dataset rev : String) (prio : Priority) (payload : Content)
    (fanout : List String) : List Job :=
  backfillJobs g fatal
    (upsertEntry cache (successEntry root dataset none none rev payload fanout))
    queue dataset rev prio

/-! ### Job lifecycle manager (modelled from the spec, section 4.4)

The `JobManager` lives in `libcommon` / `worker.job_manager`, not among the
excerpted sources; only its tests are.  The definitions below are modelled
from the spec — validate, parallel-step guard, compute, commit — with one
branch pinned by `test_doesnotexist`: when the dataset does not exist
upstream, `process` reports failure and writes **no** cache entry. -/

/-- Structured error as the tests observe it (`status_code`, `code`). -/
structure JmError where
  status_code : Nat
  code : String
deriving DecidableEq, Repr

/-- Job description handed to the manager (`JobInfo`). -/
structure JobInfo where
  job_id : String
  job_type : String
  dataset : String
  config : Option String
  split : Option String
  priority : Priority
deriving DecidableEq, Repr

/-- A job runner implementation: its declared job type and the processing
step it is bound to. -/
structure JobRunnerSpec where
  job_type : String
  processing_step : ProcessingStep
deriving DecidableEq, Repr

/-- Modelled from the spec: the validate stage — the job's declared type must
match both the job runner implementation's type and the processing step bound
to it; a mismatch is a fatal configuration error (`ValueError`). -/
def checkType (job : JobInfo) (runner : JobRunnerSpec) : Except String Unit :=
  if job.job_type ≠ runner.job_type then
    .error "ValueError: job type does not match the job runner type"
  else if job.job_type ≠ runner.processing_step.job_type then
    .error "ValueError: job type does not match the processing step type"
  else
    .ok ()

/-- Modelled from the spec: the parallel-step guard — abort with
`ResponseAlreadyComputedError` when an equivalent result already exists under
the configured parallel sibling kind, with a matching `dataset_git_revision`
and version at least the sibling's required version. -/
def raise_if_parallel_response_exists (cache : List CacheEntry)
    (dataset : String) (config split : Option String)
    (current_revision : String) (parallel_cache_kind : String)
    (parallel_job_version : Nat) : Except JmError Unit :=
  match findEntry cache parallel_cache_kind dataset config split with
  | some e =>
      if e.dataset_git_revision = some current_revision &&
          parallel_job_version ≤ e.job_runner_version then
        .error { status_code := 500, code := "ResponseAlreadyComputedError" }
      else .ok ()
  | none => .ok ()

/-- Outcome the external computation collaborator would deliver
(`compute(...) -> (payload, discovered_fanout_keys) | ComputationError`). -/
inductive ComputeOutcome where
  | success (payload : Content) (fanout : List String)
  | failure (status : Nat) (code : String) (body : Content)
deriving DecidableEq, Repr

/-- How one `process` call ended. -/
inductive JobExit where
  | success
  | computeFailed (code : String)
  | aborted (e : JmError)
  | skippedNotFound
deriving DecidableEq, Repr

/-- Result of one `process` call: the exit (or a raised fatal configuration
error), the final cache, and whether the computation collaborator ran. -/
structure RunOutcome where
  result : Except String JobExit
  cache : List CacheEntry
  compute_ran : Bool
deriving Repr

/-- Modelled from the spec: the cache entry committed when the computation
fails with a structured error. -/
def errorEntry (s : ProcessingStep) (job : JobInfo) (rev : String)
    (status : Nat) (code : String) (body : Content) : CacheEntry :=
  { kind := s.cache_kind, dataset := job.dataset, config := job.config,
    split := job.split, http_status := status, error_code := some code,
    content := body, details := body,
    job_runner_version := s.job_runner_version,
    dataset_git_revision := some rev, progress := none, fanout := [] }

/-- Modelled from the spec: `JobManager.process` — validate (fatal on
mismatch), resolve the upstream revision (`test_doesnotexist`: when the
dataset does not exist upstream, report failure and write no cache entry),
apply the parallel-step guard (exit without writing on a duplicate), then
compute and commit a success or error entry. -/
def processJob (job : JobInfo) (runner : JobRunnerSpec)
    (cache : List CacheEntry) (revision : Option String)
    (parallel : Option (String × Nat)) (compute : ComputeOutcome) :
    RunOutcome :=
  match checkType job runner with
  | .error msg => { result := .error msg, cache := cache, compute_ran := false }
  | .ok _ =>
    match revision with
    | none =>
        { result := .ok .skippedNotFound, cache := cache, compute_ran := false }
    | some rev =>
        match (match parallel with
               | some pk =>
                   raise_if_parallel_response_exists cache job.dataset
                     job.config job.split rev pk.1 pk.2
               | none => .ok ()) with
        | .error e =>
            { result := .ok (.aborted e), cache := cache, compute_ran := false }
        | .ok _ =>
            match compute with
            | .success payload fanout =>
                { result := .ok .success,
                  cache := upsertEntry cache
                    (successEntry runner.processing_step job.dataset job.config
                      job.split rev payload fanout),
                  compute_ran := true }
            | .failure status code body =>
                { result := .ok (.computeFailed code),
                  cache := upsertEntry cache
                    (errorEntry runner.processing_step job rev status code body),
                  compute_ran := true }

/-- The cache entry committed by `set_crashed` (pinned by
`test_job_runner_set_crashed`): error code `JobManagerCrashedError`, error
http status 501 (`NOT_IMPLEMENTED`), content and details both
`\x7b"error": message\x7d`; revision and version are not stored yet. -/
def crashedEntry (s : ProcessingStep) (job : JobInfo) (message : String) :
    CacheEntry :=
  { kind := s.cache_kind, dataset := job.dataset, config := job.config,
    split := job.split, http_status := 501,
    error_code := some "JobManagerCrashedError",
    content := [("error", message)], details := [("error", message)],
    job_runner_version := s.job_runner_version,
    dataset_git_revision := none, progress := none, fanout := [] }

/-- Modelled from the spec: `set_crashed` commits an error cache entry with
the dedicated crashed error code under the job's key. -/
def set_crashed (s : ProcessingStep) (job : JobInfo)
    (cache : List CacheEntry) (message : String) : List CacheEntry :=
  upsertEntry cache (crashedEntry s job message)

/-! ### `retry` decorator
(src/services/worker/src/worker/job_runners/split/first_rows_from_streaming.py)

The decorated function is embedded as an oracle `f : Nat → Attempt α ε`
giving the outcome of each attempt (index 0 first). -/

/-- Fixed sleep schedule of the `retry` decorator. -/
def SLEEPS : List Nat := [1, 7, 70, 7 * 60, 70 * 60]

/-- Maximum number of attempts of the `retry` decorator. -/
def MAX_ATTEMPTS : Nat := SLEEPS.length

/-- Outcome of one attempt of the wrapped function: a result, a
`ConnectionError`, or any other exception. -/
inductive Attempt (α ε : Type) where
  | success (a : α)
  | connError (e : ε)
  | otherError (e : ε)
deriving DecidableEq, Repr

/-- Result of running the retried function: success, an exception other than
`ConnectionError` propagated as-is, or a `RuntimeError` chained to the last
`ConnectionError` after the attempts are exhausted.  Each constructor carries
the list of sleeps performed, in order. -/
inductive RetryResult (α ε : Type) where
  | ok (sleeps : List Nat) (a : α)
  | raised (sleeps : List Nat) (e : ε)
  | runtimeError (sleeps : List Nat) (last_err : Option ε)
deriving DecidableEq, Repr

/-- The `while attempt < MAX_ATTEMPTS` loop, with
`fuel = MAX_ATTEMPTS - attempt`: sleep `SLEEPS[attempt]` before every
attempt, return on success, retry on `ConnectionError`, propagate any other
exception, and raise `RuntimeError` from the last `ConnectionError` when the
attempts are exhausted. -/
def retryAux {α ε : Type} (f : Nat → Attempt α ε) :
    Nat → Nat → List Nat → Option ε → RetryResult α ε
  | 0, _, sleeps, last_err => .runtimeError sleeps last_err
  | fuel + 1, attempt, sleeps, last_err =>
      let sleeps2 := sleeps ++ [SLEEPS.getD attempt 0]
      match f attempt with
      | .success a => .ok sleeps2 a
      | .otherError e => .raised sleeps2 e
      | .connError e => retryAux f fuel (attempt + 1) sleeps2 (some e)

/-- `retry(func)(...)`: run the attempts starting at attempt 0. -/
def retryRun {α ε : Type} (f : Nat → Attempt α ε) : RetryResult α ε :=
  retryAux f MAX_ATTEMPTS 0 [] none

/-! ### `get_rows` (same file)

The loaded dataset is embedded as the stream of its rows; `itertools.islice`
is `List.take`. -/

/-- A row (`Row = Mapping[str, Any]`). -/
abbrev Row : Type := Content

/-- The rows `get_rows` materialises:
`list(itertools.islice(ds, rows_max_number + 1))` — one more than asked, only
to detect whether the split was truncated. -/
def rowsPlusOne (stream : List Row) (rows_max_number : Nat) : List Row :=
  stream.take (rows_max_number + 1)

/-- The list `get_rows` returns on success:
`rows_plus_one[:rows_max_number]`. -/
def getRowsResult (stream : List Row) (rows_max_number : Nat) : List Row :=
  (rowsPlusOne stream rows_max_number).take rows_max_number

/-! ### `compute_first_rows_response` (same file)

External collaborators (`get_response`, `get_dataset_config_info`,
`load_dataset`, `get_rows` outcomes, `transform_rows` internals,
`get_json_size`, `create_truncated_row_items`) are oracle fields / function
parameters; the control flow is the source's. -/

/-- An upstream cached response as the function reads it: its `http_status`
and its `content["splits"]` split names (`none` when the content does not
have the expected format, which raises at extraction time). -/
structure UpstreamResp where
  http_status : Nat
  splits : Option (List String)
deriving DecidableEq, Repr

/-- What `get_dataset_config_info` returns: `info.features` (`none` or the
empty list are falsy) and `info.size_in_bytes`. -/
structure DatasetInfo where
  features : Option (List String)
  size_in_bytes : Option Nat
deriving DecidableEq, Repr

/-- Oracle for the external calls of `compute_first_rows_response`. -/
structure FirstRowsOracle where
  streaming_splits_resp : Option UpstreamResp
  dataset_info_splits_resp : Option UpstreamResp
  info : Except Unit DatasetInfo
  resolved_features : Except Unit (List String)
  streaming_rows : Except Unit (List Row)
  normal_rows : Except Unit (List Row)

/-- Error taxonomy of `compute_first_rows_response` (the classes defined in
the file all carry `HTTPStatus.INTERNAL_SERVER_ERROR`; `ConfigNotFoundError`
and `SplitNotFoundError` come from `worker.job_runner`). -/
inductive FRError where
  | configNotFound
  | previousStepFormat
  | previousStepStatus
  | splitNotFound
  | infoError
  | featuresError
  | tooManyColumns
  | tooBigContent
  | streamingRows
  | normalRows
  | rowsPostProcessing
deriving DecidableEq, Repr

/-- The `status_code` each error class carries. -/
def FRError.status : FRError → Nat
  | .configNotFound => 404
  | .splitNotFound => 404
  | _ => 500

/-- The response shape (`SplitFirstRowsResponse`). -/
structure SplitFirstRowsResponse where
  dataset : String
  config : String
  split : String
  features : List String
  rows : List Row
deriving DecidableEq, Repr

/-- Fallback of the first `try`: read the `/split-names-from-dataset-info`
response; `DoesNotExist` becomes `ConfigNotFoundError`, any other failure
`PreviousStepFormatError`. -/
def getSplitsFallback (o : FirstRowsOracle) :
    Except FRError (UpstreamResp × List String) :=
  match o.dataset_info_splits_resp with
  | none => .error .configNotFound
  | some r =>
      match r.splits with
      | some s => .ok (r, s)
      | none => .error .previousStepFormat

/-- First stage: get the upstream splits response, trying
`/split-names-from-streaming` first and falling back on any failure. -/
def getSplitsFull (o : FirstRowsOracle) :
    Except FRError (UpstreamResp × List String) :=
  match o.streaming_splits_resp with
  | some r =>
      match r.splits with
      | some s => .ok (r, s)
      | none => getSplitsFallback o
  | none => getSplitsFallback o

/-- Stages of `compute_first_rows_response` up to and including obtaining the
features: upstream status check, split existence check, then
`get_dataset_config_info`, resolving the features in streaming mode when
`info.features` is falsy. -/
def featuresStage (split : String) (o : FirstRowsOracle) :
    Except FRError (List String × DatasetInfo) :=
  match getSplitsFull o with
  | .error e => .error e
  | .ok (upstream, splits) =>
      if upstream.http_status ≠ 200 then .error .previousStepStatus
      else if split ∉ splits then .error .splitNotFound
      else
        match o.info with
        | .error _ => .error .infoError
        | .ok info =>
            match info.features with
            | some (f :: fs) => .ok (f :: fs, info)
            | _ =>
                match o.resolved_features with
                | .ok fs => .ok (fs, info)
                | .error _ => .error .featuresError

/-- Hard-coded fallback size bound (`MAX_SIZE_FALLBACK`). -/
def MAX_SIZE_FALLBACK : Nat := 100000000

/-- Result of `compute_first_rows_response` together with the number of
`get_rows` invocations it performed. -/
structure FRResult where
  result : Except FRError SplitFirstRowsResponse
  row_fetches : Nat
deriving Repr

/-- `compute_first_rows_response`: features, column-count ceiling,
features-only size ceiling, rows (streaming with normal-mode fallback),
post-processing, truncation. -/
def compute_first_rows_response (dataset config split : String)
    (o : FirstRowsOracle)
    (get_json_size : SplitFirstRowsResponse → Nat)
    (transform_rows : List Row → Except Unit (List Row))
    (create_truncated_row_items : List Row → Nat → Nat → Nat → List Row)
    (min_cell_bytes rows_max_bytes rows_max_number rows_min_number : Nat)
    (columns_max_number : Nat) : FRResult :=
  match featuresStage split o with
  | .error e => { result := .error e, row_fetches := 0 }
  | .ok (features, info) =>
      if !features.isEmpty && features.length > columns_max_number then
        { result := .error .tooManyColumns, row_fetches := 0 }
      else
        let response_features_only : SplitFirstRowsResponse :=
          { dataset := dataset, config := config, split := split,
            features := features, rows := [] }
        let surrounding_json_size := get_json_size response_features_only
        if surrounding_json_size > rows_max_bytes then
          { result := .error .tooBigContent, row_fetches := 0 }
        else
          let finish : List Row → Nat → FRResult := fun rows fetches =>
            match transform_rows rows with
            | .error _ =>
                { result := .error .rowsPostProcessing, row_fetches := fetches }
            | .ok transformed =>
                let row_items := create_truncated_row_items transformed
                  min_cell_bytes (rows_max_bytes - surrounding_json_size)
                  rows_min_number
                { result := .ok { response_features_only with rows := row_items },
                  row_fetches := fetches }
          match o.streaming_rows with
          | .ok rows => finish rows 1
          | .error _ =>
              if (match info.size_in_bytes with
                  | none => true
                  | some n => n > MAX_SIZE_FALLBACK) then
                { result := .error .streamingRows, row_fetches := 1 }
              else
                match o.normal_rows with
                | .ok rows => finish rows 2
                | .error _ => { result := .error .normalRows, row_fetches := 2 }

/-! ### Cache-kind migration
(src/jobs/mongodb_migration/.../_20230323155000_cache_dataset_info.py)

A cache document is its `kind` plus all its other fields, abstracted as a
payload of an arbitrary type. -/

/-- A document of the cache responses collection: the `kind` field and
everything else. -/
structure CacheDoc (α : Type) where
  kind : String
  rest : α
deriving DecidableEq, Repr

/-- The old kind (`dataset_info = "/dataset-info"`). -/
def dataset_info : String := "/dataset-info"

/-- The new kind (`dataset_info_updated = "dataset-info"`). -/
def dataset_info_updated : String := "dataset-info"

/-- `MigrationCacheUpdateDatasetInfo.up`:
`update_many(kind == "/dataset-info", set kind = "dataset-info")`. -/
def migration_up {α : Type} (docs : List (CacheDoc α)) : List (CacheDoc α) :=
  docs.map (fun d =>
    if d.kind = dataset_info then { d with kind := dataset_info_updated } else d)

/-- `MigrationCacheUpdateDatasetInfo.down`: the reverse rename. -/
def migration_down {α : Type} (docs : List (CacheDoc α)) : List (CacheDoc α) :=
  docs.map (fun d =>
    if d.kind = dataset_info_updated then { d with kind := dataset_info } else d)

/-! ### Concrete fixtures (from the tests), used by the witnesses -/

/-- A step whose cache kind and job type equal its name, as in the test
graphs of `test_job_manager.py`. -/
def mkStep (n : String) (it : InputType) (tb : List String) : ProcessingStep :=
  { name := n, cache_kind := n, job_type := n, input_type := it,
    triggered_by := tb, job_runner_version := 1 }

/-- The graph of `test_backfill`. -/
def gBackfill : ProcessingGraph :=
  { steps := [ mkStep "dummy" .dataset [],
               mkStep "dataset-child" .dataset ["dummy"],
               mkStep "config-child" .config ["dummy"],
               mkStep "dataset-unrelated" .dataset [] ] }

/-- The root step of `test_backfill`. -/
def rootStep : ProcessingStep := mkStep "dummy" .dataset []

/-- The `config-child` step of `test_backfill`. -/
def configChildStep : ProcessingStep := mkStep "config-child" .config ["dummy"]

/-- The `dataset-child` step of `test_backfill`. -/
def datasetChildStep : ProcessingStep := mkStep "dataset-child" .dataset ["dummy"]

/-- Required-for-viewer step `S1` of the validity-aggregation scenario. -/
def stepS1 : ProcessingStep := mkStep "S1" .dataset []

/-- Required-for-viewer step `S2` of the validity-aggregation scenario. -/
def stepS2 : ProcessingStep := mkStep "S2" .dataset []

/-- Valid cache keys when both required steps hold dataset `d`. -/
def gvdBoth : String → List String :=
  fun k => if k = "S1" then ["d"] else if k = "S2" then ["d"] else []

/-- Valid cache keys after the sole valid entry for `S2` was removed. -/
def gvdOnlyS1 : String → List String :=
  fun k => if k = "S1" then ["d"] else []

/-- The job of `test_raise_if_parallel_response_exists`. -/
def jobParallelTest : JobInfo :=
  { job_id := "job_id", job_type := "dummy", dataset := "dataset",
    config := some "config", split := some "split", priority := .normal }

/-- The processing step `DummyJobRunner` is bound to. -/
def stepDummy : ProcessingStep := mkStep "dummy" .dataset []

/-- The runner of the job-manager tests (`DummyJobRunner`). -/
def runnerDummy : JobRunnerSpec :=
  { job_type := "dummy", processing_step := stepDummy }

/-- The `dummy-parallel` entry upserted by
`test_raise_if_parallel_response_exists`. -/
def parallelEntry : CacheEntry :=
  { kind := "dummy-parallel", dataset := "dataset", config := some "config",
    split := some "split", http_status := 200, error_code := none,
    content := [], details := [], job_runner_version := 1,
    dataset_git_revision := some "CURRENT_GIT_REVISION", progress := some 1,
    fanout := [] }

/-- An oracle on which `compute_first_rows_response` reaches the features
stage with two features. -/
def oracleTwoFeatures : FirstRowsOracle :=
  { streaming_splits_resp := some { http_status := 200, splits := some ["split"] },
    dataset_info_splits_resp := none,
    info := .ok { features := some ["a", "b"], size_in_bytes := some 10 },
    resolved_features := .error (),
    streaming_rows := .ok [],
    normal_rows := .error () }

/-- The job of `test_doesnotexist`: a dataset that does not exist upstream. -/
def jobDoesNotExist : JobInfo :=
  { job_id := "job_id", job_type := "dummy", dataset := "doesnotexist",
    config := some "config", split := some "split", priority := .normal }

/-- The first job of `test_check_type`: its declared type is not the type of
the step bound to the runner. -/
def jobWrongType : JobInfo :=
  { job_id := "job_id", job_type := "not-dummy", dataset := "dataset",
    config := some "config", split := some "split", priority := .normal }

/-- A wrapped function whose first attempt hits a `ConnectionError` and whose
second attempt succeeds. -/
def retryWitnessRuns : Nat → Attempt Nat Nat :=
  fun i => if i = 0 then .connError 7 else .success 42

/-! ## Theorems -/

/-! ### Helper lemmas -/

/-- Unfolding of the `get_valid` loop once the accumulator is filled: the
result is the first step's set filtered by membership in every later step's
set. -/
theorem getValidLoop_some (gvd : String → List String) :
    ∀ (steps : List ProcessingStep) (acc : List String),
      getValidLoop gvd steps (some acc) =
        some (acc.filter
          (fun d => steps.all (fun s => decide (d ∈ gvd s.cache_kind))))
  | [], acc => by simp [getValidLoop]
  | step :: rest, acc => by
      rw [getValidLoop, getValidLoop_some gvd rest]
      congr 1
      rw [List.filter_filter]
      apply List.filter_congr
      intro d _
      simp [List.all_cons, Bool.and_comm]

/-- A fold of list appends is empty when every piece is. -/
theorem foldr_append_nil {α β : Type} (f : α → List β) (ts : List α)
    (h : ∀ t ∈ ts, f t = []) :
    ts.foldr (fun t acc => f t ++ acc) [] = [] := by
  induction ts with
  | nil => rfl
  | cons head rest ih =>
      simp only [List.foldr_cons, h head (List.mem_cons_self head rest),
        List.nil_append]
      exact ih (fun t ht => h t (List.mem_cons_of_mem head ht))

/-- While no triggering step has a valid, current entry, no config name is
known. -/
theorem knownConfigs_eq_nil (g : ProcessingGraph) (cache : List CacheEntry)
    (dataset rev : String) (s : ProcessingStep)
    (h : hasValidTriggerEntry g cache dataset rev s = false) :
    knownConfigs g cache dataset rev s = [] := by
  rw [hasValidTriggerEntry, List.any_eq_false] at h
  refine foldr_append_nil _ _ (fun t ht => ?_)
  have ht2 := h t ht
  rw [triggerConfigs]
  split
  case h_1 e he =>
    rw [he] at ht2
    simp only [Bool.not_eq_true] at ht2
    simp [ht2]
  case h_2 => rfl

/-- Every job the planner creates for a step carries that step's job type and
the WAITING status. -/
theorem jobsForStep_fields (g : ProcessingGraph) (fatal : String → Bool)
    (cache : List CacheEntry) (queue : List Job) (dataset rev : String)
    (prio : Priority) (s : ProcessingStep) :
    ∀ j ∈ jobsForStep g fatal cache queue dataset rev prio s,
      j.job_type = s.job_type ∧ j.status = Status.waiting := by
  intro j hj
  rw [jobsForStep, List.mem_filterMap] at hj
  obtain ⟨p, _, hcond⟩ := hj
  split at hcond
  · exact absurd hcond (by simp)
  · split at hcond
    · cases hcond
      exact ⟨rfl, rfl⟩
    · exact absurd hcond (by simp)

/-- A step contributes no jobs counted under a different job type. -/
theorem countWaiting_jobsForStep_ne (g : ProcessingGraph) (fatal : String → Bool)
    (cache : List CacheEntry) (queue : List Job) (dataset rev : String)
    (prio : Priority) (s : ProcessingStep) (ty : String) (h : ty ≠ s.job_type) :
    countWaitingJobs (jobsForStep g fatal cache queue dataset rev prio s) ty = 0 := by
  rw [countWaitingJobs, List.countP_eq_zero]
  intro j hj
  have hf := jobsForStep_fields g fatal cache queue dataset rev prio s j hj
  simp only [hf.1, hf.2, Bool.and_eq_true, decide_eq_true_eq, not_and]
  intro hh
  exact absurd hh.symm h

/-- A plan over steps none of which carries the given job type counts zero
jobs of that type. -/
theorem countWaiting_jobsForSteps_not_mem (g : ProcessingGraph)
    (fatal : String → Bool) (cache : List CacheEntry) (queue : List Job)
    (dataset rev : String) (prio : Priority) (steps : List ProcessingStep)
    (ty : String) (h : ty ∉ steps.map ProcessingStep.job_type) :
    countWaitingJobs (jobsForSteps g fatal cache queue dataset rev prio steps)
      ty = 0 := by
  induction steps with
  | nil => rfl
  | cons head rest ih =>
      rw [List.map_cons, List.mem_cons, not_or] at h
      rw [jobsForSteps, List.foldr_cons, countWaitingJobs, List.countP_append]
      have h1 := countWaiting_jobsForStep_ne g fatal cache queue dataset rev
        prio head ty h.1
      rw [countWaitingJobs] at h1
      rw [h1]
      have h2 := ih h.2
      rw [jobsForSteps, countWaitingJobs] at h2
      rw [h2]

/-- With pairwise-distinct job types, counting one step's job type over the
whole plan is counting it over that step's own jobs. -/
theorem countWaiting_jobsForSteps_mem (g : ProcessingGraph)
    (fatal : String → Bool) (cache : List CacheEntry) (queue : List Job)
    (dataset rev : String) (prio : Priority) (steps : List ProcessingStep)
    (s : ProcessingStep) (hmem : s ∈ steps)
    (hnodup : (steps.map ProcessingStep.job_type).Nodup) :
    countWaitingJobs (jobsForSteps g fatal cache queue dataset rev prio steps)
        s.job_type =
      countWaitingJobs (jobsForStep g fatal cache queue dataset rev prio s)
        s.job_type := by
  induction steps with
  | nil => cases hmem
  | cons head rest ih =>
      rw [List.map_cons, List.nodup_cons] at hnodup
      rw [jobsForSteps, List.foldr_cons, countWaitingJobs, List.countP_append]
      rcases List.mem_cons.mp hmem with heq | hmem2
      · subst heq
        have h0 := countWaiting_jobsForSteps_not_mem g fatal cache queue dataset
          rev prio rest s.job_type hnodup.1
        rw [jobsForSteps, countWaitingJobs] at h0
        rw [h0, countWaitingJobs]
        omega
      · have hne : s.job_type ≠ head.job_type := by
          intro hh
          exact hnodup.1 (hh ▸ List.mem_map_of_mem ProcessingStep.job_type hmem2)
        have h1 := countWaiting_jobsForStep_ne g fatal cache queue dataset rev
          prio head s.job_type hne
        rw [countWaitingJobs] at h1
        rw [h1]
        have h2 := ih hmem2 hnodup.2
        rw [jobsForSteps, countWaitingJobs] at h2
        rw [h2, countWaitingJobs]
        omega

/-- A config-level step with no known config yields no job at all. -/
theorem jobsForStep_config_nil (g : ProcessingGraph) (fatal : String → Bool)
    (cache : List CacheEntry) (queue : List Job) (dataset rev : String)
    (prio : Priority) (s : ProcessingStep) (hc : s.input_type = .config)
    (hk : knownConfigs g cache dataset rev s = []) :
    jobsForStep g fatal cache queue dataset rev prio s = [] := by
  simp [jobsForStep, triplesOf, hc, hk]

/-- A dataset-level step with no cache entry and no pending job yields exactly
one WAITING job. -/
theorem jobsForStep_dataset_one (g : ProcessingGraph) (fatal : String → Bool)
    (cache : List CacheEntry) (queue : List Job) (dataset rev : String)
    (prio : Priority) (s : ProcessingStep) (hd : s.input_type = .dataset)
    (hentry : findEntry cache s.cache_kind dataset none none = none)
    (hpending : pendingJob queue s.job_type dataset none none = false) :
    countWaitingJobs (jobsForStep g fatal cache queue dataset rev prio s)
      s.job_type = 1 := by
  simp [jobsForStep, triplesOf, hd, hpending, hentry, needsJob, countWaitingJobs]

/-- An entry always matches its own key. -/
theorem entryHasKey_self (e : CacheEntry) :
    entryHasKey e.kind e.dataset e.config e.split e = true := by
  simp [entryHasKey]

/-- Replacing the keyed entry makes it the first find for its key. -/
theorem find_map_replace (e : CacheEntry) :
    ∀ (cache : List CacheEntry),
      cache.any (entryHasKey e.kind e.dataset e.config e.split) = true →
      (cache.map (fun old =>
        if entryHasKey e.kind e.dataset e.config e.split old then e
        else old)).find? (entryHasKey e.kind e.dataset e.config e.split) =
        some e
  | [], h => by cases h
  | head :: rest, h => by
      by_cases hk : entryHasKey e.kind e.dataset e.config e.split head = true
      · simp only [List.map_cons, hk, if_pos, List.find?_cons, entryHasKey_self]
      · rw [List.any_cons, Bool.or_eq_true] at h
        rcases h with h | h
        · exact absurd h hk
        · have hkf : entryHasKey e.kind e.dataset e.config e.split head = false :=
            Bool.eq_false_iff.mpr hk
          simp only [List.map_cons, List.find?_cons, hkf, Bool.false_eq_true,
            if_false]
          exact find_map_replace e rest h

/-- Appending a fresh entry makes it findable when no older entry matches. -/
theorem find_append_single (e : CacheEntry) :
    ∀ (cache : List CacheEntry),
      cache.any (entryHasKey e.kind e.dataset e.config e.split) = false →
      (cache ++ [e]).find? (entryHasKey e.kind e.dataset e.config e.split) =
        some e
  | [], _ => by simp [List.find?, entryHasKey_self]
  | head :: rest, h => by
      rw [List.any_cons, Bool.or_eq_false_iff] at h
      rw [List.cons_append, List.find?_cons]
      simp only [h.1]
      exact find_append_single e rest h.2

/-- After an upsert, the entry is exactly what `get` returns for its key. -/
theorem findEntry_upsertEntry_self (cache : List CacheEntry) (e : CacheEntry) :
    findEntry (upsertEntry cache e) e.kind e.dataset e.config e.split = some e := by
  rw [findEntry, upsertEntry]
  split
  case isTrue hany => exact find_map_replace e cache hany
  case isFalse hany =>
    exact find_append_single e cache (Bool.eq_false_iff.mpr hany)

/-! ### Claim theorems -/

/-- Claim C1, counterexample: with no step required by the dataset viewer,
`get_valid` returns the empty list (the `datasets` accumulator stays `None`),
so no dataset is valid — while the claimed universally-quantified condition
holds vacuously.  The stated equivalence is therefore false at this input. -/
theorem get_valid_empty_steps_counterexample :
    ¬ ((is_valid [] (fun _ => ["d"]) "d") ↔
        (∀ s ∈ ([] : List ProcessingStep),
          "d" ∈ (fun _ => ["d"] : String → List String) s.cache_kind)) := by
  simp [is_valid, get_valid, getValidLoop]

/-- Claim C1, amended: provided at least one processing step is required by
the dataset viewer, `is_valid(dataset)` (membership in `get_valid`) holds iff
the dataset belongs to the valid set of every required step; removing the
sole valid entry for one required step therefore makes the dataset
invalid. -/
theorem is_valid_iff (required_steps : List ProcessingStep)
    (gvd : String → List String) (d : String) (h : required_steps ≠ []) :
    is_valid required_steps gvd d ↔
      ∀ s ∈ required_steps, d ∈ gvd s.cache_kind := by
  match required_steps, h with
  | step :: rest, _ =>
    rw [is_valid, get_valid, getValidLoop, getValidLoop_some]
    simp [List.mem_mergeSort, List.mem_filter, List.all_eq_true]

/-- Claim C1, witness: with required steps `S1, S2` and dataset `d` in both
valid sets, `d` is valid; after removing the sole valid entry for `S2`, it is
not. -/
theorem is_valid_iff_witness :
    is_valid [stepS1, stepS2] gvdBoth "d" ∧
      ¬ is_valid [stepS1, stepS2] gvdOnlyS1 "d" :=
  ⟨(is_valid_iff [stepS1, stepS2] gvdBoth "d" (by decide)).mpr (by decide),
   fun h =>
     absurd ((is_valid_iff [stepS1, stepS2] gvdOnlyS1 "d" (by decide)).mp h
         stepS2 (by decide))
       (by decide)⟩

/-- Claim C2: in any graph with pairwise-distinct job types, (a) a backfill
pass creates no job for a config-level step while no enumerating ancestor of
it has a valid, current cache entry; after a dataset-level root job completes
successfully (its success entry is upserted and the planner runs again), (b)
every dataset-level step with no cache entry and no pending job — root steps
not triggered by the completed step included — gets exactly one WAITING job,
and (c) a config-level step whose configs are still unknown gets none. -/
theorem backfill_fanout_cascade (g : ProcessingGraph) (fatal : String → Bool)
    (cache : List CacheEntry) (queue : List Job) (dataset rev : String)
    (prio : Priority) (root sc sd : ProcessingStep) (payload : Content)
    (fanout : List String)
    (hnodup : (g.steps.map ProcessingStep.job_type).Nodup)
    (hsc : sc ∈ g.steps) (hscc : sc.input_type = .config)
    (hsd : sd ∈ g.steps) (hsdd : sd.input_type = .dataset) :
    (hasValidTriggerEntry g cache dataset rev sc = false →
      countWaitingJobs (backfillJobs g fatal cache queue dataset rev prio)
        sc.job_type = 0)
    ∧ (findEntry
          (upsertEntry cache (successEntry root dataset none none rev payload fanout))
          sd.cache_kind dataset none none = none →
        pendingJob queue sd.job_type dataset none none = false →
        countWaitingJobs
          (cascadeJobs g fatal cache queue root dataset rev prio payload fanout)
          sd.job_type = 1)
    ∧ (knownConfigs g
          (upsertEntry cache (successEntry root dataset none none rev payload fanout))
          dataset rev sc = [] →
        countWaitingJobs
          (cascadeJobs g fatal cache queue root dataset rev prio payload fanout)
          sc.job_type = 0) := by
  refine ⟨fun hvalid => ?_, fun hentry hpending => ?_, fun hk => ?_⟩
  · rw [backfillJobs, countWaiting_jobsForSteps_mem g fatal cache queue dataset
      rev prio g.steps sc hsc hnodup]
    rw [jobsForStep_config_nil g fatal cache queue dataset rev prio sc hscc
      (knownConfigs_eq_nil g cache dataset rev sc hvalid)]
    rfl
  · rw [cascadeJobs, backfillJobs, countWaiting_jobsForSteps_mem g fatal _ queue
      dataset rev prio g.steps sd hsd hnodup]
    exact jobsForStep_dataset_one g fatal _ queue dataset rev prio sd hsdd
      hentry hpending
  · rw [cascadeJobs, backfillJobs, countWaiting_jobsForSteps_mem g fatal _ queue
      dataset rev prio g.steps sc hsc hnodup]
    rw [jobsForStep_config_nil g fatal _ queue dataset rev prio sc hscc hk]
    rfl

/-- Claim C2, witness: the `test_backfill` graph.  Before the root job
completes, `config-child` gets no job; after it completes (payload with no
enumerated configs), `dataset-child` gets exactly one WAITING job and
`config-child` still none. -/
theorem backfill_fanout_cascade_witness :
    countWaitingJobs
        (backfillJobs gBackfill (fun _ => false) [] [] "dataset" "0.1.2" .normal)
        "config-child" = 0
    ∧ countWaitingJobs
        (cascadeJobs gBackfill (fun _ => false) [] [] rootStep "dataset" "0.1.2"
          .normal [("key", "value")] [])
        "dataset-child" = 1
    ∧ countWaitingJobs
        (cascadeJobs gBackfill (fun _ => false) [] [] rootStep "dataset" "0.1.2"
          .normal [("key", "value")] [])
        "config-child" = 0 := by
  have h := backfill_fanout_cascade gBackfill (fun _ => false) [] [] "dataset"
    "0.1.2" .normal rootStep configChildStep datasetChildStep [("key", "value")]
    [] (by decide) (by decide) (by decide) (by decide) (by decide)
  exact ⟨h.1 (by decide), h.2.1 (by decide) (by decide), h.2.2 (by decide)⟩

/-- Claim C3: when a cache entry for the parallel sibling kind exists for the
job's `(dataset, config, split)` with the dataset's current revision and a
version at least the sibling's required version, running the job aborts with
`ResponseAlreadyComputedError` (status 500), leaves the cache unchanged, and
in particular writes no new entry for the job's own kind. -/
theorem parallel_response_guard (job : JobInfo) (runner : JobRunnerSpec)
    (cache : List CacheEntry) (rev pk : String) (pv : Nat)
    (compute : ComputeOutcome) (e : CacheEntry)
    (hcheck : checkType job runner = .ok ())
    (hentry : findEntry cache pk job.dataset job.config job.split = some e)
    (hrev : e.dataset_git_revision = some rev)
    (hver : pv ≤ e.job_runner_version) :
    processJob job runner cache (some rev) (some (pk, pv)) compute =
      { result := .ok (.aborted
          { status_code := 500, code := "ResponseAlreadyComputedError" }),
        cache := cache, compute_ran := false }
    ∧ findEntry (processJob job runner cache (some rev) (some (pk, pv)) compute).cache
        runner.processing_step.cache_kind job.dataset job.config job.split =
      findEntry cache runner.processing_step.cache_kind job.dataset job.config
        job.split := by
  have hmain : processJob job runner cache (some rev) (some (pk, pv)) compute =
      { result := .ok (.aborted
          { status_code := 500, code := "ResponseAlreadyComputedError" }),
        cache := cache, compute_ran := false } := by
    simp [processJob, hcheck, raise_if_parallel_response_exists, hentry, hrev, hver]
  exact ⟨hmain, by rw [hmain]⟩

/-- Claim C3, witness: the `test_raise_if_parallel_response_exists` scenario —
a valid `dummy-parallel` entry at the current revision makes the `dummy` job
abort with `ResponseAlreadyComputedError` and write nothing. -/
theorem parallel_response_guard_witness :
    processJob jobParallelTest runnerDummy [parallelEntry]
        (some "CURRENT_GIT_REVISION") (some ("dummy-parallel", 1))
        (.success [] []) =
      { result := .ok (.aborted
          { status_code := 500, code := "ResponseAlreadyComputedError" }),
        cache := [parallelEntry], compute_ran := false } :=
  (parallel_response_guard jobParallelTest runnerDummy [parallelEntry]
    "CURRENT_GIT_REVISION" "dummy-parallel" 1 (.success [] []) parallelEntry
    (by rfl) (by decide) (by decide) (by decide)).1

/-- Claim C4, counterexample: processing the `test_doesnotexist` job (dataset
absent upstream, revision unresolvable) records **no** error cache entry
under the job's key — `get_response` still raises `DoesNotExist` — which
contradicts the claim that a non-retryable error entry is recorded. -/
theorem doesnotexist_no_entry_counterexample :
    findEntry
        (processJob jobDoesNotExist runnerDummy [] none none
          (.success [("key", "value")] [])).cache
        runnerDummy.processing_step.cache_kind "doesnotexist" (some "config")
        (some "split") = none
    ∧ (processJob jobDoesNotExist runnerDummy [] none none
          (.success [("key", "value")] [])).result = .ok .skippedNotFound := by
  exact ⟨rfl, rfl⟩

/-- Claim C4, amended: for a job on a dataset that does not exist upstream,
`process` reports failure without invoking the computation and **writes no
cache entry at all** (the cache is returned unchanged), and a subsequent
backfill pass for that dataset aborts with `DatasetNotFoundError` when
resolving the revision, so it also leaves the cache alone. -/
theorem upstream_not_found_no_cache_write (job : JobInfo)
    (runner : JobRunnerSpec) (cache : List CacheEntry)
    (parallel : Option (String × Nat)) (compute : ComputeOutcome)
    (g : ProcessingGraph) (fatal : String → Bool) (queue : List Job)
    (prio : Priority) (hcheck : checkType job runner = .ok ()) :
    processJob job runner cache none parallel compute =
      { result := .ok .skippedNotFound, cache := cache, compute_ran := false }
    ∧ backfill g fatal cache queue job.dataset none prio =
        .error "DatasetNotFoundError" := by
  exact ⟨by simp [processJob, hcheck], rfl⟩

/-- Claim C4, witness: the `test_doesnotexist` job leaves an empty cache
empty and reports failure. -/
theorem upstream_not_found_no_cache_write_witness :
    processJob jobDoesNotExist runnerDummy [] none none
        (.success [("key", "value")] []) =
      { result := .ok .skippedNotFound, cache := [], compute_ran := false } :=
  (upstream_not_found_no_cache_write jobDoesNotExist runnerDummy [] none
    (.success [("key", "value")] []) gBackfill (fun _ => false) [] .normal
    (by rfl)).1

/-- Claim C5: when the job's declared type differs from the runner's declared
type or from the job type of the processing step bound to the runner, the
type check fails with a `ValueError` and processing raises it as a fatal
configuration error before any computation occurs — the cache is unchanged
and the computation collaborator never runs. -/
theorem job_type_mismatch_fatal (job : JobInfo) (runner : JobRunnerSpec)
    (cache : List CacheEntry) (revision : Option String)
    (parallel : Option (String × Nat)) (compute : ComputeOutcome)
    (h : job.job_type ≠ runner.job_type ∨
      job.job_type ≠ runner.processing_step.job_type) :
    (∃ msg, checkType job runner = .error msg)
    ∧ (processJob job runner cache revision parallel compute).cache = cache
    ∧ (processJob job runner cache revision parallel compute).compute_ran = false
    ∧ ∃ msg,
        (processJob job runner cache revision parallel compute).result =
          .error msg := by
  have hc : ∃ msg, checkType job runner = .error msg := by
    rcases h with h | h
    · exact ⟨"ValueError: job type does not match the job runner type",
        by simp [checkType, h]⟩
    · by_cases h1 : job.job_type = runner.job_type
      · exact ⟨"ValueError: job type does not match the processing step type",
          by simp [checkType, h1, h1 ▸ h]⟩
      · exact ⟨"ValueError: job type does not match the job runner type",
          by simp [checkType, h1]⟩
  obtain ⟨msg, hmsg⟩ := hc
  refine ⟨⟨msg, hmsg⟩, ?_, ?_, ⟨msg, ?_⟩⟩ <;> simp [processJob, hmsg]

/-- Claim C5, witness: the first `test_check_type` case — job type
`not-dummy` against the `dummy` runner/step fails fatally with no cache
write and no computation. -/
theorem job_type_mismatch_fatal_witness :
    (∃ msg, checkType jobWrongType runnerDummy = .error msg)
    ∧ (processJob jobWrongType runnerDummy [] (some "0.1.2") none
          (.success [("key", "value")] [])).cache = []
    ∧ (processJob jobWrongType runnerDummy [] (some "0.1.2") none
          (.success [("key", "value")] [])).compute_ran = false
    ∧ ∃ msg,
        (processJob jobWrongType runnerDummy [] (some "0.1.2") none
          (.success [("key", "value")] [])).result = .error msg :=
  job_type_mismatch_fatal jobWrongType runnerDummy [] (some "0.1.2") none
    (.success [("key", "value")] []) (.inl (by decide))

/-- Claim C6: for every job and message, `set_crashed` commits under the
job's key an error cache entry whose `error_code` is
`JobManagerCrashedError`, whose `http_status` denotes an error (501), and
whose `content` and `details` both equal the singleton error body carrying
the message. -/
theorem set_crashed_commits_crashed_entry (s : ProcessingStep) (job : JobInfo)
    (cache : List CacheEntry) (message : String) :
    findEntry (set_crashed s job cache message) s.cache_kind job.dataset
        job.config job.split = some (crashedEntry s job message)
    ∧ (crashedEntry s job message).error_code = some "JobManagerCrashedError"
    ∧ 400 ≤ (crashedEntry s job message).http_status
    ∧ (crashedEntry s job message).content = [("error", message)]
    ∧ (crashedEntry s job message).details = [("error", message)] :=
  ⟨findEntry_upsertEntry_self cache (crashedEntry s job message),
    rfl, by norm_num [crashedEntry], rfl, rfl⟩

/-- Claim C7: the retry policy of the `retry` decorator — the sleep schedule
is the fixed increasing `[1, 7, 70, 420, 4200]` and each attempt is preceded
by its sleep; five consecutive `ConnectionError`s exhaust the attempts and
raise a `RuntimeError` chained to the last one; a first success at attempt
`k` returns its value after the first `k + 1` sleeps; any other exception at
attempt `k` propagates immediately after the same sleeps. -/
theorem retry_policy {α ε : Type} (f : Nat → Attempt α ε) (k : Nat) (a : α)
    (e : ε) (errs : Nat → ε) :
    (SLEEPS = [1, 7, 70, 420, 4200] ∧ List.Chain' (· < ·) SLEEPS ∧
      MAX_ATTEMPTS = 5)
    ∧ ((∀ i, i < MAX_ATTEMPTS → f i = .connError (errs i)) →
        retryRun f = .runtimeError [1, 7, 70, 420, 4200] (some (errs 4)))
    ∧ (k < MAX_ATTEMPTS → (∀ i, i < k → f i = .connError (errs i)) →
        f k = .success a → retryRun f = .ok (SLEEPS.take (k + 1)) a)
    ∧ (k < MAX_ATTEMPTS → (∀ i, i < k → f i = .connError (errs i)) →
        f k = .otherError e → retryRun f = .raised (SLEEPS.take (k + 1)) e) := by
  refine ⟨⟨by decide, by norm_num [SLEEPS, List.chain'_cons], by decide⟩,
    fun h => ?_, fun hk hconn hs => ?_, fun hk hconn hs => ?_⟩
  · have h0 := h 0 (by decide)
    have h1 := h 1 (by decide)
    have h2 := h 2 (by decide)
    have h3 := h 3 (by decide)
    have h4 := h 4 (by decide)
    simp [retryRun, retryAux, MAX_ATTEMPTS, SLEEPS, h0, h1, h2, h3, h4]
  · rw [MAX_ATTEMPTS, SLEEPS] at hk
    simp only [List.length_cons, List.length_nil] at hk
    interval_cases k <;>
      simp [retryRun, retryAux, MAX_ATTEMPTS, SLEEPS, hs,
        fun i hi => hconn i hi]
  · rw [MAX_ATTEMPTS, SLEEPS] at hk
    simp only [List.length_cons, List.length_nil] at hk
    interval_cases k <;>
      simp [retryRun, retryAux, MAX_ATTEMPTS, SLEEPS, hs,
        fun i hi => hconn i hi]

/-- Claim C7, witness: a `ConnectionError` on attempt 0 and a success on
attempt 1 return the value after sleeping 1 then 7 seconds. -/
theorem retry_policy_witness :
    retryRun retryWitnessRuns = .ok [1, 7] 42 :=
  (retry_policy retryWitnessRuns 1 42 0 (fun _ => 7)).2.2.1 (by decide)
    (by
      intro i hi
      interval_cases i
      rfl)
    (by rfl)

/-- Claim C8: once `compute_first_rows_response` has obtained the features,
a feature count above `columns_max_number` fails with `TooManyColumnsError`
before any `get_rows` call, and a features-only response already larger than
`rows_max_bytes` fails with `TooBigContentError`; both error classes carry
the internal-server-error status 500. -/
theorem first_rows_ceilings (dataset config split : String)
    (o : FirstRowsOracle) (gjs : SplitFirstRowsResponse → Nat)
    (tr : List Row → Except Unit (List Row))
    (ctri : List Row → Nat → Nat → Nat → List Row)
    (mcb rmb rmn rminn cmax : Nat) (F : List String) (info : DatasetInfo)
    (hF : featuresStage split o = .ok (F, info)) :
    (F.length > cmax →
      compute_first_rows_response dataset config split o gjs tr ctri mcb rmb
          rmn rminn cmax =
        { result := .error .tooManyColumns, row_fetches := 0 })
    ∧ (F.length ≤ cmax →
        gjs { dataset := dataset, config := config, split := split,
              features := F, rows := [] } > rmb →
        compute_first_rows_response dataset config split o gjs tr ctri mcb rmb
            rmn rminn cmax =
          { result := .error .tooBigContent, row_fetches := 0 })
    ∧ FRError.tooManyColumns.status = 500
    ∧ FRError.tooBigContent.status = 500 := by
  refine ⟨fun h => ?_, fun hle hsize => ?_, rfl, rfl⟩
  · have hne : F.isEmpty = false := by
      cases F
      · exact absurd h (by simp only [List.length_nil]; omega)
      · rfl
    simp only [compute_first_rows_response, hF]
    simp [hne, h]
  · have hc : decide (F.length > cmax) = false := by
      simp only [decide_eq_false_iff_not]
      omega
    simp only [compute_first_rows_response, hF]
    simp [hc, hsize]

/-- Claim C8, witness: two features against a one-column ceiling fail with
`TooManyColumnsError` and zero `get_rows` invocations. -/
theorem first_rows_ceilings_witness :
    compute_first_rows_response "dataset" "config" "split" oracleTwoFeatures
        (fun _ => 0) (fun rows => .ok rows) (fun rows _ _ _ => rows)
        0 1000 100 10 1 =
      { result := .error .tooManyColumns, row_fetches := 0 } :=
  (first_rows_ceilings "dataset" "config" "split" oracleTwoFeatures
    (fun _ => 0) (fun rows => .ok rows) (fun rows _ _ _ => rows)
    0 1000 100 10 1 ["a", "b"]
    { features := some ["a", "b"], size_in_bytes := some 10 } (by rfl)).1
    (by decide)

/-- Claim C9: a successful `get_rows` call materialises at most
`rows_max_number + 1` rows, returns at most `rows_max_number` of them, and
the returned list is exactly the first `rows_max_number` rows of the split —
the extra fetched row only detects truncation and is always sliced away. -/
theorem get_rows_bounded (stream : List Row) (rows_max_number : Nat) :
    (getRowsResult stream rows_max_number).length ≤ rows_max_number
    ∧ (rowsPlusOne stream rows_max_number).length ≤ rows_max_number + 1
    ∧ getRowsResult stream rows_max_number = stream.take rows_max_number := by
  refine ⟨?_, ?_, ?_⟩
  · rw [getRowsResult, List.length_take]
    omega
  · rw [rowsPlusOne, List.length_take]
    omega
  · rw [getRowsResult, rowsPlusOne, List.take_take]
    congr 1
    omega

/-- Claim C10: for every cache-store state with no document of kind
`dataset-info`, `up` followed by `down` restores every document exactly, and
each of the two renames changes no field other than `kind` on any state. -/
theorem migration_round_trip {α : Type} (docs docs2 : List (CacheDoc α))
    (h : ∀ d ∈ docs, d.kind ≠ dataset_info_updated) :
    migration_down (migration_up docs) = docs
    ∧ (migration_up docs2).map CacheDoc.rest = docs2.map CacheDoc.rest
    ∧ (migration_down docs2).map CacheDoc.rest = docs2.map CacheDoc.rest := by
  refine ⟨?_, ?_, ?_⟩
  · rw [migration_down, migration_up, List.map_map]
    have hpt : ∀ d ∈ docs,
        ((fun d => if d.kind = dataset_info_updated then
            { d with kind := dataset_info } else d) ∘
         (fun d => if d.kind = dataset_info then
            { d with kind := dataset_info_updated } else d)) d = d := by
      intro d hd
      by_cases hk : d.kind = dataset_info
      · cases d
        simp_all [dataset_info, dataset_info_updated]
      · simp only [Function.comp_apply, if_neg hk, if_neg (h d hd)]
    rw [List.map_congr_left hpt]
    exact List.map_id' docs
  · rw [migration_up, List.map_map]
    refine List.map_congr_left (fun d hd => ?_)
    by_cases hk : d.kind = dataset_info <;> simp [hk]
  · rw [migration_down, List.map_map]
    refine List.map_congr_left (fun d hd => ?_)
    by_cases hk : d.kind = dataset_info_updated <;> simp [hk]

/-- Claim C10, witness: a store with one `/dataset-info` document and one
unrelated document round-trips through `up` then `down`. -/
theorem migration_round_trip_witness :
    migration_down (migration_up
        ([{ kind := dataset_info, rest := 0 }, { kind := "other", rest := 1 }] :
          List (CacheDoc Nat))) =
      [{ kind := dataset_info, rest := 0 }, { kind := "other", rest := 1 }] :=
  (migration_round_trip
    [{ kind := dataset_info, rest := 0 }, { kind := "other", rest := 1 }]
    [] (by decide)).1
